import Mathlib

/-!
Verification of the natural-language specification of the `intro-to-dl`
teaching repository against its source: four day-1 Jupyter notebooks, an
optional MNIST-RNN notebook, and seven Slurm batch-job shell scripts.

The shallow embedding has three layers:

* batch scripts: each script is a record of its `#SBATCH` resource options
  and the ordered list of shell commands it runs (module loads, `export`
  statements, `set -xv`, an optional `tar` extraction, and a final
  interpreter invocation on the script arguments);
* notebooks: each notebook is the ordered list of its code cells, each cell
  the ordered list of the events relevant to the claims (framework import,
  repository-authored `assert` statements, dataset loading, array
  transformation, model definition/compilation, `fit`/`evaluate`/`predict`
  calls, plotting);
* the small pieces of genuine computation: the Keras one-hot encoding
  `to_categorical` and NumPy `argmax` as used by the MNIST notebooks, the
  pixel normalisation `p / 255`, and the hand-written IMDB review
  encoder/decoder of `04-tf2-imdb-rnn.ipynb` (Python `dict` lookups are
  modelled with last-binding-wins association lists, matching `dict`
  construction from a pair list).

Machine floats in the normalisation step are modelled as rationals; the
properties proved about them (range bounds and the exact endpoint images)
hold for the float computation as well since 0, 1, 255 and the comparisons
involved are exact in binary floating point.
-/

/- ## Batch-job scripts -/

/-- Resource options given by the `#SBATCH` lines of a batch script.
Fields that some scripts omit are `Option`s. -/
structure SbatchOpts where
  partition : String
  account : String
  gres : String
  timeLimit : String
  mem : String
  nodes : Option Nat
  ntasks : Option Nat
  cpusPerTask : Option Nat
  reservation : Option String
  deriving DecidableEq, Repr

/-- One shell command of a batch script.  `ifThen` models a bash
conditional; it is part of the grammar so that the absence of branching in
the actual scripts is a statement about the scripts, not about the model.
`runPython interp viaSrun` is the final interpreter invocation on the
script arguments (`python3 $*`, `srun python3.7 $*`, ...). -/
inductive ScriptCmd where
  | moduleLoad (m : String)
  | moduleList
  | exportVar (name value : String)
  | setTrace
  | tarExtract (archive dest : String)
  | ifThen (cond : String)
  | runPython (interp : String) (viaSrun : Bool)
  deriving DecidableEq, Repr

/-- A batch-job script: its repository path, `#SBATCH` options and command
list. -/
structure BatchScript where
  path : String
  opts : SbatchOpts
  cmds : List ScriptCmd
  deriving DecidableEq, Repr

/-- `src/day2/run-lscratch.sh`. -/
def runLscratchDay2 : BatchScript :=
  { path := "src/day2/run-lscratch.sh"
    opts := { partition := "gpu", account := "project_2005299"
              gres := "gpu:v100:1,nvme:100", timeLimit := "1:00:00"
              mem := "64G", nodes := some 1, ntasks := none
              cpusPerTask := some 10, reservation := some "dlintro" }
    cmds := [ .moduleLoad "tensorflow", .moduleList
            , .exportVar "DATADIR" "$LOCAL_SCRATCH"
            , .exportVar "KERAS_HOME" "/scratch/project_2005299/keras-cache"
            , .exportVar "TRANSFORMERS_CACHE" "/scratch/project_2005299/transformers-cache"
            , .setTrace
            , .tarExtract "/scratch/project_2005299/data/dogs-vs-cats.tar" "$LOCAL_SCRATCH"
            , .runPython "python3" false ] }

/-- `src/slurm/run-hvd.sh`. -/
def runHvd : BatchScript :=
  { path := "src/slurm/run-hvd.sh"
    opts := { partition := "gpu", account := "project_2004846"
              gres := "gpu:v100:2", timeLimit := "1:00:00"
              mem := "64G", nodes := some 1, ntasks := some 2
              cpusPerTask := some 10, reservation := some "dlintro" }
    cmds := [ .moduleLoad "tensorflow", .moduleList
            , .exportVar "DATADIR" "/scratch/project_2004846/data"
            , .exportVar "KERAS_HOME" "/scratch/project_2004846/keras-cache"
            , .exportVar "TRANSFORMERS_CACHE" "/scratch/project_2004846/transformers-cache"
            , .setTrace
            , .runPython "python3" true ] }

/-- `src/slurm/run-lscratch.sh`. -/
def runLscratchSlurm : BatchScript :=
  { path := "src/slurm/run-lscratch.sh"
    opts := { partition := "gpu", account := "project_2005006"
              gres := "gpu:v100:1,nvme:100", timeLimit := "1:00:00"
              mem := "64G", nodes := some 1, ntasks := none
              cpusPerTask := some 10, reservation := some "dlintro" }
    cmds := [ .moduleLoad "tensorflow/2.6", .moduleList
            , .exportVar "DATADIR" "$LOCAL_SCRATCH"
            , .exportVar "KERAS_HOME" "/scratch/project_2005006/keras-cache"
            , .exportVar "TRANSFORMERS_CACHE" "/scratch/project_2005006/transformers-cache"
            , .setTrace
            , .tarExtract "/scratch/project_2005006/data/dogs-vs-cats.tar" "$LOCAL_SCRATCH"
            , .runPython "python3" false ] }

/-- The Horovod script embedded at the end of `src/unnamed/part_000`
(`module load tensorflow/2.0.0-hvd`, `srun python3.7 $*`). -/
def runHvdTf200 : BatchScript :=
  { path := "src/unnamed/part_000 (trailing script)"
    opts := { partition := "gpu", account := "project_2002238"
              gres := "gpu:v100:2", timeLimit := "1:00:00"
              mem := "64G", nodes := some 1, ntasks := some 2
              cpusPerTask := some 20, reservation := some "dlintro" }
    cmds := [ .moduleLoad "tensorflow/2.0.0-hvd", .moduleList
            , .exportVar "DATADIR" "/scratch/project_2002238/data"
            , .setTrace
            , .runPython "python3.7" true ] }

/-- `src/unnamed/part_001` (plain single-GPU run script, no reservation). -/
def runPart001 : BatchScript :=
  { path := "src/unnamed/part_001"
    opts := { partition := "gpu", account := "project_2005299"
              gres := "gpu:v100:1", timeLimit := "1:00:00"
              mem := "64G", nodes := some 1, ntasks := none
              cpusPerTask := some 10, reservation := none }
    cmds := [ .moduleLoad "tensorflow", .moduleList
            , .exportVar "DATADIR" "/scratch/project_2005299/data"
            , .exportVar "KERAS_HOME" "/scratch/project_2005299/keras-cache"
            , .exportVar "TRANSFORMERS_CACHE" "/scratch/project_2005299/transformers-cache"
            , .setTrace
            , .runPython "python3" false ] }

/-- `src/unnamed/part_002` (short tensorflow/2.0.0 script, no exports). -/
def runPart002 : BatchScript :=
  { path := "src/unnamed/part_002"
    opts := { partition := "gpu", account := "project_2001756"
              gres := "gpu:v100:1", timeLimit := "1:00:00"
              mem := "64G", nodes := none, ntasks := none
              cpusPerTask := some 10, reservation := none }
    cmds := [ .moduleLoad "tensorflow/2.0.0", .moduleList
            , .setTrace
            , .runPython "python3.7" true ] }

/-- `src/unnamed/part_003` (single-GPU run script with reservation). -/
def runPart003 : BatchScript :=
  { path := "src/unnamed/part_003"
    opts := { partition := "gpu", account := "project_2004846"
              gres := "gpu:v100:1", timeLimit := "1:00:00"
              mem := "64G", nodes := some 1, ntasks := none
              cpusPerTask := some 10, reservation := some "dlintro" }
    cmds := [ .moduleLoad "tensorflow", .moduleList
            , .exportVar "DATADIR" "/scratch/project_2004846/data"
            , .exportVar "KERAS_HOME" "/scratch/project_2004846/keras-cache"
            , .exportVar "TRANSFORMERS_CACHE" "/scratch/project_2004846/transformers-cache"
            , .setTrace
            , .runPython "python3" false ] }

/-- All seven batch-job scripts of the repository. -/
def allScripts : List BatchScript :=
  [ runLscratchDay2, runHvd, runLscratchSlurm, runHvdTf200
  , runPart001, runPart002, runPart003 ]

/-- A command that creates, modifies or extracts files or directories
(among the command forms occurring in these scripts, only the `tar`
extraction does). -/
def modifiesFilesystem : ScriptCmd → Bool
  | .tarExtract _ _ => true
  | _ => false

/-- A branching construct. -/
def isBranch : ScriptCmd → Bool
  | .ifThen _ => true
  | _ => false

/-- The interpreter invocation commands of a script. -/
def isRunPython : ScriptCmd → Bool
  | .runPython _ _ => true
  | _ => false

/-- Modules loaded by a script, in order. -/
def modulesOf (s : BatchScript) : List String :=
  s.cmds.filterMap fun c => match c with
    | .moduleLoad m => some m
    | _ => none

/-- Names of the environment variables a script exports, in order. -/
def exportNamesOf (s : BatchScript) : List String :=
  s.cmds.filterMap fun c => match c with
    | .exportVar n _ => some n
    | _ => none

/-- Names of the environment variables exported before the interpreter
invocation. -/
def exportNamesBeforePython (s : BatchScript) : List String :=
  (s.cmds.takeWhile fun c => !isRunPython c).filterMap fun c => match c with
    | .exportVar n _ => some n
    | _ => none

/-- The interpreter invocations of a script (interpreter name and whether
it is launched through `srun`). -/
def interpOf (s : BatchScript) : List (String × Bool) :=
  s.cmds.filterMap fun c => match c with
    | .runPython i v => some (i, v)
    | _ => none

/-- Does a script export the dataset directory and both cache directories
before invoking the interpreter? -/
def hasDataAndCacheExports (s : BatchScript) : Bool :=
  ["DATADIR", "KERAS_HOME", "TRANSFORMERS_CACHE"].all
    fun n => (exportNamesBeforePython s).contains n

/-- Is a command an `export`? -/
def isExportCmd : ScriptCmd → Bool
  | .exportVar _ _ => true
  | _ => false

/-- The common command skeleton of all seven scripts: a `module load`,
`module list`, zero or more `export`s, `set -xv`, an optional `tar`
extraction, and a final interpreter invocation on the script arguments. -/
def matchesTemplate (cmds : List ScriptCmd) : Bool :=
  match cmds with
  | .moduleLoad _ :: .moduleList :: rest =>
    match rest.dropWhile isExportCmd with
    | .setTrace :: tail =>
      match tail with
      | [.runPython _ _] => true
      | [.tarExtract _ _, .runPython _ _] => true
      | _ => false
    | _ => false
  | _ => false

/- ## Notebooks -/

/-- One event of a notebook code cell, in statement order.  The event
vocabulary covers exactly what the claims quantify over: repository-
authored checks (`assertVersion` is the `assert(LV(tf.__version__) >=
LV("2.0.0"))` statement, `assertCheck v msg` the `assert v is not None,
"msg"` statement), `tryExcept`/`raiseStmt` for Python error handling
(present in the grammar, authored in no notebook), dataset loading,
random-data generation, array transformation (`writeArrays targets srcs`:
the statement rebinds or mutates each array in `targets`, computing the
new contents from the arrays in `srcs`), model definition/compilation,
training/evaluation/prediction calls, and plotting (`plotData` plots input
samples, `plotResults` plots training curves or misclassified examples). -/
inductive NbEvent where
  | importFramework
  | assertVersion
  | assertCheck (v msg : String)
  | tryExcept
  | raiseStmt (msg : String)
  | loadBuiltin (dataset : String) (arrays : List String)
  | randomData (arrays : List String)
  | writeArrays (targets srcs : List String)
  | defineModel
  | compileModel
  | fitModel (dataArrays : List String)
  | evaluateModel (dataArrays : List String)
  | predictModel
  | plotData
  | plotResults
  | otherEvent
  deriving DecidableEq, Repr

/-- A notebook: its repository path and its code cells in top-to-bottom
order, each cell the list of its events. -/
structure Notebook where
  path : String
  cells : List (List NbEvent)
  deriving DecidableEq, Repr

/-- `src/day1/01-tf2-test-setup.ipynb`: imports and version assert, GPU
probe, building a toy dense model, `compile`, then `fit` and `evaluate`
on randomly generated arrays (`np.random.rand` / `np.random.randint`). -/
def nbTestSetup : Notebook :=
  { path := "src/day1/01-tf2-test-setup.ipynb"
    cells :=
      [ [ .importFramework, .assertVersion ]
      , [ .otherEvent ]
      , [ .otherEvent ]
      , [ .otherEvent ]
      , [ .defineModel ]
      , [ .otherEvent ]
      , [ .otherEvent ]
      , [ .compileModel ]
      , [ .randomData ["X_train", "Y_train"], .fitModel ["X_train", "Y_train"] ]
      , [ .randomData ["X_test", "Y_test"], .evaluateModel ["X_test", "Y_test"] ] ] }

/-- `src/day1/02-tf2-mnist-mlp.ipynb`: MNIST MLP notebook, including the
Task 1 exercise cells guarded by `assert ex1_outputs is not None, "You
need to write the missing model definition"`. -/
def nbMnistMlp : Notebook :=
  { path := "src/day1/02-tf2-mnist-mlp.ipynb"
    cells :=
      [ [ .importFramework, .assertVersion ]
      , [ .otherEvent ]
      , [ .loadBuiltin "mnist" ["X_train", "y_train", "X_test", "y_test"]
        , .writeArrays ["X_train", "X_test"] ["X_train", "X_test"]
        , .writeArrays ["X_train", "X_test"] ["X_train", "X_test"]
        , .writeArrays ["Y_train", "Y_test"] ["y_train", "y_test"] ]
      , [ .plotData ]
      , [ .defineModel, .compileModel ]
      , [ .otherEvent ]
      , [ .fitModel ["X_train", "Y_train"] ]
      , [ .plotResults ]
      , [ .evaluateModel ["X_test", "Y_test"] ]
      , [ .predictModel, .plotResults ]
      , [ .plotResults ]
      , [ .otherEvent ]
      , [ .otherEvent ]
      , [ .otherEvent ]
      , [ .assertCheck "ex1_outputs" "You need to write the missing model definition"
        , .defineModel, .compileModel ]
      , [ .fitModel ["X_train", "Y_train"] ]
      , [ .plotResults ]
      , [ .evaluateModel ["X_test", "Y_test"] ]
      , [] ] }

/-- `src/day1/03-tf2-mnist-cnn.ipynb`: MNIST CNN notebook.  The loaded
arrays are cast, scaled and, in a separate later cell, reshaped to
`(n, 28, 28, 1)`; Tasks 1 and 2 retrain on the same arrays. -/
def nbMnistCnn : Notebook :=
  { path := "src/day1/03-tf2-mnist-cnn.ipynb"
    cells :=
      [ [ .importFramework, .assertVersion ]
      , [ .loadBuiltin "mnist" ["X_train", "y_train", "X_test", "y_test"]
        , .writeArrays ["X_train", "X_test"] ["X_train", "X_test"]
        , .writeArrays ["X_train", "X_test"] ["X_train", "X_test"]
        , .writeArrays ["Y_train", "Y_test"] ["y_train", "y_test"] ]
      , [ .writeArrays ["X_train", "X_test"] ["X_train", "X_test"] ]
      , [ .defineModel, .compileModel ]
      , [ .otherEvent ]
      , [ .fitModel ["X_train", "Y_train"] ]
      , [ .plotResults ]
      , [ .evaluateModel ["X_test", "Y_test"] ]
      , [ .predictModel, .plotResults ]
      , [ .plotResults ]
      , [ .otherEvent ]
      , [ .otherEvent ]
      , [ .assertCheck "ex1_outputs" "You need to write the missing model definition"
        , .defineModel, .compileModel ]
      , [ .fitModel ["X_train", "Y_train"] ]
      , [ .plotResults ]
      , [ .evaluateModel ["X_test", "Y_test"] ]
      , [ .defineModel, .compileModel, .fitModel ["X_train", "Y_train"] ]
      , [ .evaluateModel ["X_test", "Y_test"] ] ] }

/-- `src/day1/04-tf2-imdb-rnn.ipynb`: IMDB LSTM notebook.  `x_train` and
`x_test` are truncated/padded by `sequence.pad_sequences` in the cell
after the load. -/
def nbImdbRnn : Notebook :=
  { path := "src/day1/04-tf2-imdb-rnn.ipynb"
    cells :=
      [ [ .importFramework, .assertVersion ]
      , [ .loadBuiltin "imdb" ["x_train", "y_train", "x_test", "y_test"] ]
      , [ .writeArrays ["x_train", "x_test"] ["x_train", "x_test"] ]
      , [ .otherEvent ]
      , [ .otherEvent ]
      , [ .defineModel, .compileModel ]
      , [ .otherEvent ]
      , [ .fitModel ["x_train", "y_train"] ]
      , [ .plotResults ]
      , [ .evaluateModel ["x_test", "y_test"] ]
      , [ .predictModel ]
      , [ .otherEvent ]
      , [ .otherEvent ]
      , [ .assertCheck "ex1_outputs" "You need to write the missing model definition"
        , .defineModel, .compileModel ]
      , [ .fitModel ["x_train", "y_train"] ]
      , [ .plotResults ]
      , [ .evaluateModel ["x_test", "y_test"] ]
      , [] ] }

/-- The optional MNIST-RNN notebook at the head of `src/unnamed/part_000`
(`tf2-mnist-rnn.ipynb`). -/
def nbMnistRnn : Notebook :=
  { path := "src/unnamed/part_000 (tf2-mnist-rnn.ipynb)"
    cells :=
      [ [ .importFramework, .assertVersion ]
      , [ .loadBuiltin "mnist" ["X_train", "y_train", "X_test", "y_test"]
        , .writeArrays ["X_train", "X_test"] ["X_train", "X_test"]
        , .writeArrays ["X_train", "X_test"] ["X_train", "X_test"]
        , .writeArrays ["Y_train", "Y_test"] ["y_train", "y_test"] ]
      , [ .defineModel, .compileModel ]
      , [ .otherEvent ]
      , [ .fitModel ["X_train", "Y_train"] ]
      , [ .plotResults ]
      , [ .evaluateModel ["X_test", "Y_test"] ]
      , [ .predictModel, .plotResults ]
      , [ .plotResults ]
      , [] ] }

/-- All notebooks of the repository. -/
def allNotebooks : List Notebook :=
  [ nbTestSetup, nbMnistMlp, nbMnistCnn, nbImdbRnn, nbMnistRnn ]

/-- The events of a notebook in top-to-bottom execution order. -/
def nbFlat (nb : Notebook) : List NbEvent :=
  nb.cells.flatten

/-- Is an event a repository-authored validity check (an `assert`)? -/
def isRepoCheck : NbEvent → Bool
  | .assertVersion => true
  | .assertCheck _ _ => true
  | _ => false

/-- Is an event a `try`/`except` block or a `raise` statement? -/
def isTryOrRaise : NbEvent → Bool
  | .tryExcept => true
  | .raiseStmt _ => true
  | _ => false

/-- Provenance of an array variable. -/
inductive Origin where
  | builtin
  | random
  | unknown
  deriving DecidableEq, Repr

/-- Origin environment lookup (most recent binding first). -/
def lookupOrigin : List (String × Origin) → String → Origin
  | [], _ => .unknown
  | p :: rest, a => if p.1 = a then p.2 else lookupOrigin rest a

/-- Combine the origins of the sources of a transformation: a value
derived solely from built-in data is built-in, solely from random data is
random, anything mixed or unrooted is unknown. -/
def combineOrigins : List Origin → Origin
  | [] => .unknown
  | o :: rest => rest.foldl (fun a b => if a = b then a else .unknown) o

/-- One step of origin tracking across an event. -/
def originStep (env : List (String × Origin)) : NbEvent → List (String × Origin)
  | .loadBuiltin _ arrs => arrs.foldl (fun e a => (a, Origin.builtin) :: e) env
  | .randomData arrs => arrs.foldl (fun e a => (a, Origin.random) :: e) env
  | .writeArrays targets srcs =>
    targets.foldl (fun e a => (a, combineOrigins (srcs.map (lookupOrigin env))) :: e) env
  | _ => env

/-- Origin environment after a list of events. -/
def originEnv (evs : List NbEvent) : List (String × Origin) :=
  evs.foldl originStep []

/-- Origin of an array at the end of a notebook. -/
def originAt (nb : Notebook) (a : String) : Origin :=
  lookupOrigin (originEnv (nbFlat nb)) a

/-- Does every `fit` call of the event list train on arrays whose origin,
at the point of the call, is a built-in dataset loader? -/
def fitsFromBuiltin (evs : List NbEvent) : Bool :=
  (List.range evs.length).all fun i =>
    match evs.get? i with
    | some (NbEvent.fitModel arrs) =>
      arrs.all fun a =>
        match lookupOrigin (originEnv (evs.take i)) a with
        | .builtin => true
        | _ => false
    | _ => true

/-- Event predicates used by the pipeline-shape check. -/
def isLoadBuiltin : NbEvent → Bool
  | .loadBuiltin _ _ => true
  | _ => false

def isDefineModel : NbEvent → Bool
  | .defineModel => true
  | _ => false

def isCompileModel : NbEvent → Bool
  | .compileModel => true
  | _ => false

def isFitModel : NbEvent → Bool
  | .fitModel _ => true
  | _ => false

def isEvaluateModel : NbEvent → Bool
  | .evaluateModel _ => true
  | _ => false

def isPlotResults : NbEvent → Bool
  | .plotResults => true
  | _ => false

/-- The spec's pipeline shape: the framework import comes first, a
built-in dataset load follows it, then the (first) model definition, its
compilation, the (first) `fit`, with an `evaluate` and a results plot
after that `fit`. -/
def pipelineOk (nb : Notebook) : Bool :=
  let evs := nbFlat nb
  match evs.findIdx? (fun e => e = NbEvent.importFramework),
        evs.findIdx? isLoadBuiltin,
        evs.findIdx? isDefineModel,
        evs.findIdx? isCompileModel,
        evs.findIdx? isFitModel,
        evs.findIdx? isEvaluateModel,
        evs.findIdx? isPlotResults with
  | some i0, some i1, some i2, some i3, some i4, some i5, some i6 =>
    decide (i0 < i1) && decide (i1 < i2) && decide (i2 < i3) &&
    decide (i3 < i4) && decide (i4 < i5) && decide (i4 < i6)
  | _, _, _, _, _, _, _ => false

/-- Arrays produced by the built-in dataset loads of a cell. -/
def cellLoadedArrays (c : List NbEvent) : List String :=
  c.foldr (fun e acc => match e with
    | NbEvent.loadBuiltin _ arrs => arrs ++ acc
    | _ => acc) []

/-- Arrays written (mutated in place or rebound) by a cell. -/
def cellWrites (c : List NbEvent) : List String :=
  c.foldr (fun e acc => match e with
    | NbEvent.writeArrays targets _ => targets ++ acc
    | _ => acc) []

/-- Does no cell after cell `i` write any of the arrays in `arrs`? -/
def noLaterWritesFrom (nb : Notebook) (i : Nat) (arrs : List String) : Bool :=
  nb.cells.enum.all fun p =>
    decide (p.1 ≤ i) || (cellWrites p.2).all fun a => !(arrs.contains a)

/-- The claimed dataset-immutability property at cell granularity: for
every built-in load in cell `i`, no cell after `i` writes a loaded
array. -/
def datasetImmutable (nb : Notebook) : Bool :=
  nb.cells.enum.all fun p =>
    noLaterWritesFrom nb p.1 (cellLoadedArrays p.2)

/-- Index of the first cell that defines a model. -/
def firstDefineCell (nb : Notebook) : Option Nat :=
  nb.cells.findIdx? (fun c => c.any isDefineModel)

/-- The amended dataset-write discipline: every write to a loaded array
happens strictly before the first model-definition cell (in the load cell
itself or an immediately following preprocessing cell). -/
def writesConfinedToPreprocessing (nb : Notebook) : Bool :=
  match firstDefineCell nb with
  | none => datasetImmutable nb
  | some d =>
    nb.cells.enum.all fun p =>
      (cellLoadedArrays p.2).all fun a =>
        nb.cells.enum.all fun q =>
          decide (q.1 < d) || !((cellWrites q.2).contains a)

/-- The repository-authored checks of a notebook, in order. -/
def repoChecks (nb : Notebook) : List NbEvent :=
  (nbFlat nb).filter isRepoCheck

/- ## One-hot encoding and argmax (MNIST notebooks) -/

/-- Modelled from the spec: the framework's `to_categorical(y, n)` used by
the MNIST notebooks to one-hot-encode labels (the implementation lives in
the external framework, not under `src/`); the row for label `y` with `n`
classes has a one at index `y` and zeros elsewhere. -/
def to_categorical (y num_classes : Nat) : List Nat :=
  (List.range num_classes).map fun i => if i = y then 1 else 0

/-- Auxiliary loop for `argmax`: remaining list, index of the next
element, index and value of the best element so far (first maximum
wins, later elements replace it only when strictly greater). -/
def argmaxAux : List Nat → Nat → Nat → Nat → Nat
  | [], _, best, _ => best
  | x :: xs, i, best, bv =>
    if bv < x then argmaxAux xs (i + 1) i x else argmaxAux xs (i + 1) best bv

/-- Modelled from the spec: NumPy's `argmax` over a vector as used by the
MNIST notebooks (`np.argmax(predictions, axis=1)` applies it to each row);
returns the index of the first maximal entry, `0` on the empty list. -/
def argmax : List Nat → Nat
  | [] => 0
  | x :: xs => argmaxAux xs 1 0 x

/- ## Pixel normalisation (MNIST notebooks) -/

/-- The normalisation statement `X_train /= 255.0` of the MNIST notebooks,
per pixel: the loaded byte value is divided by 255 (reals modelled as
rationals). -/
def normalizePixel (p : Nat) : ℚ :=
  (p : ℚ) / 255

/-- Pixel-wise normalisation of a loaded image array. -/
def normalizeImage (xs : List Nat) : List ℚ :=
  xs.map normalizePixel

/- ## IMDB review encoding and decoding (04-tf2-imdb-rnn.ipynb) -/

/-- `nb_words = 10000` of the IMDB notebook: the number of most-frequent
words kept, and the `input_dim` of the Embedding layer. -/
def nb_words : Nat := 10000

/-- `maxlen = 80` of the IMDB notebook: reviews are cut or padded to this
length. -/
def maxlen : Nat := 80

/-- Lookup in a Python `dict` built from a `(String, Nat)` pair list:
pairs are inserted in order, so the value of the last pair with the given
key wins (`word_index[w]` / `w in word_index`). -/
def dictGetNat : List (String × Nat) → String → Option Nat
  | [], _ => none
  | p :: rest, w =>
    match dictGetNat rest w with
    | some v => some v
    | none => if p.1 = w then some p.2 else none

/-- Lookup in a Python `dict` built from a `(Nat, String)` pair list, last
binding wins (`reverse_word_index.get(k, default)` without the default). -/
def dictGetStr : List (Nat × String) → Nat → Option String
  | [], _ => none
  | p :: rest, k =>
    match dictGetStr rest k with
    | some v => some v
    | none => if p.1 = k then some p.2 else none

/-- `reverse_word_index = dict([(value, key) for (key, value) in
word_index.items()])` of the IMDB notebook. -/
def reverse_word_index (word_index : List (String × Nat)) : List (Nat × String) :=
  word_index.map fun p => (p.2, p.1)

/-- `reverse_word_index.get(k, dflt)`: lookup with a default. -/
def dictGetStrD (d : List (Nat × String)) (k : Nat) (dflt : String) : String :=
  (dictGetStr d k).getD dflt

/-- The body of the encoding loop of the IMDB notebook: the value stored
for word `w` is `word_index[w] + 3` when `w in word_index and
word_index[w]+3 < nb_words`, and the out-of-vocabulary marker `2`
otherwise. -/
def encodeToken (word_index : List (String × Nat)) (w : String) : Nat :=
  match dictGetNat word_index w with
  | some n => if n + 3 < nb_words then n + 3 else 2
  | none => 2

/-- The encoding loop `for i, w in enumerate(myreviewtext.split()):
myreview[0, i+1] = ...` of the IMDB notebook: `i` is the index of the next
word, `a` the array row being filled in place. -/
def encodeLoop (word_index : List (String × Nat)) :
    List String → Nat → List Nat → List Nat
  | [], _, a => a
  | w :: ws, i, a => encodeLoop word_index ws (i + 1) (a.set (i + 1) (encodeToken word_index w))

/-- The whole encoding cell: `myreview = np.zeros((1, maxlen), dtype=int);
myreview[0, 0] = 1` followed by the loop over the words of the review;
this is the single row of the `(1, maxlen)` array. -/
def encodeReview (word_index : List (String × Nat)) (ws : List String) : List Nat :=
  encodeLoop word_index ws 0 ((List.replicate maxlen 0).set 0 1)

/-- A small concrete vocabulary used to instantiate the IMDB encoder
theorems. -/
def demoWordIndex : List (String × Nat) :=
  [("movie", 16), ("great", 52)]

/-- A small concrete review used to instantiate the IMDB encoder
theorems. -/
def demoReview : List String :=
  ["movie", "zzz"]

/- ## Helper lemmas -/

theorem encodeToken_lt_nbWords (wi : List (String × Nat)) (w : String) :
    encodeToken wi w < nb_words := by
  unfold encodeToken
  cases dictGetNat wi w with
  | none => decide
  | some n =>
    show (if n + 3 < nb_words then n + 3 else 2) < nb_words
    by_cases h : n + 3 < nb_words
    · rw [if_pos h]; exact h
    · rw [if_neg h]; decide

theorem encodeLoop_length (wi : List (String × Nat)) (ws : List String) :
    ∀ (i : Nat) (a : List Nat), (encodeLoop wi ws i a).length = a.length := by
  induction ws with
  | nil => intro i a; rfl
  | cons w ws ih =>
    intro i a
    rw [encodeLoop, ih, List.length_set]

theorem encodeLoop_getElem_low (wi : List (String × Nat)) (ws : List String) :
    ∀ (i : Nat) (a : List Nat) (j : Nat), j < i + 1 →
      (encodeLoop wi ws i a)[j]? = a[j]? := by
  induction ws with
  | nil => intro i a j _; rfl
  | cons w ws ih =>
    intro i a j hj
    rw [encodeLoop, ih (i + 1) _ j (Nat.lt_succ_of_lt hj)]
    exact List.getElem?_set_ne (Nat.ne_of_gt hj)

theorem encodeLoop_getElem_high (wi : List (String × Nat)) (ws : List String) :
    ∀ (i : Nat) (a : List Nat) (j : Nat), i + ws.length + 1 ≤ j →
      (encodeLoop wi ws i a)[j]? = a[j]? := by
  induction ws with
  | nil => intro i a j _; rfl
  | cons w ws ih =>
    intro i a j hj
    simp only [List.length_cons] at hj
    rw [encodeLoop, ih (i + 1) _ j (by omega)]
    exact List.getElem?_set_ne (by omega)

theorem encodeLoop_getElem_mid (wi : List (String × Nat)) (ws : List String) :
    ∀ (i : Nat) (a : List Nat) (k : Nat) (hk : k < ws.length),
      i + 1 + k < a.length →
      (encodeLoop wi ws i a)[i + 1 + k]? = some (encodeToken wi ws[k]) := by
  induction ws with
  | nil =>
    intro i a k hk
    simp only [List.length_nil] at hk
    omega
  | cons w ws ih =>
    intro i a k hk hlen
    cases k with
    | zero =>
      rw [encodeLoop, encodeLoop_getElem_low wi ws (i + 1) _ (i + 1 + 0) (by omega)]
      simp only [Nat.add_zero, List.getElem_cons_zero]
      exact List.getElem?_set_eq_of_lt _ (by omega)
    | succ m =>
      rw [encodeLoop]
      have hidx : i + 1 + (m + 1) = (i + 1) + 1 + m := by omega
      have hm : m < ws.length := by
        simp only [List.length_cons] at hk
        omega
      rw [hidx, ih (i + 1) _ m hm (by rw [List.length_set]; omega)]
      simp [List.getElem_cons_succ]

theorem encodeLoop_mem_lt (wi : List (String × Nat)) (ws : List String) :
    ∀ (i : Nat) (a : List Nat), (∀ x ∈ a, x < nb_words) →
      ∀ x ∈ encodeLoop wi ws i a, x < nb_words := by
  induction ws with
  | nil => intro i a ha; exact ha
  | cons w ws ih =>
    intro i a ha
    rw [encodeLoop]
    apply ih
    intro x hx
    rcases List.mem_or_eq_of_mem_set hx with h | h
    · exact ha x h
    · rw [h]; exact encodeToken_lt_nbWords wi w

theorem dictGetStr_mem :
    ∀ (d : List (Nat × String)) (k : Nat) (v : String),
      dictGetStr d k = some v → (k, v) ∈ d := by
  intro d
  induction d with
  | nil => intro k v h; simp [dictGetStr] at h
  | cons p rest ih =>
    intro k v h
    rw [dictGetStr] at h
    cases hr : dictGetStr rest k with
    | some u =>
      rw [hr] at h
      cases h
      exact List.mem_cons_of_mem _ (ih k v hr)
    | none =>
      rw [hr] at h
      by_cases hpk : p.1 = k
      · rw [if_pos hpk] at h
        cases h
        have hp : (k, p.2) = p := by rw [← hpk]
        rw [hp]
        exact List.mem_cons_self _ _
      · rw [if_neg hpk] at h
        cases h

theorem dict_swap_roundtrip :
    ∀ (wi : List (String × Nat)) (w : String) (n : Nat),
      (∀ p ∈ wi, ∀ q ∈ wi, p.2 = q.2 → p.1 = q.1) →
      dictGetNat wi w = some n →
      dictGetStr (reverse_word_index wi) n = some w := by
  intro wi
  induction wi with
  | nil => intro w n _ h; simp [dictGetNat] at h
  | cons p rest ih =>
    intro w n hinj h
    have hinjr : ∀ a ∈ rest, ∀ b ∈ rest, a.2 = b.2 → a.1 = b.1 := by
      intro a ha b hb
      exact hinj a (List.mem_cons_of_mem _ ha) b (List.mem_cons_of_mem _ hb)
    simp only [reverse_word_index, List.map_cons]
    rw [dictGetNat] at h
    cases hr : dictGetNat rest w with
    | some v =>
      rw [hr] at h
      cases h
      have hs := ih w n hinjr hr
      simp only [reverse_word_index] at hs
      simp only [dictGetStr, hs]
    | none =>
      rw [hr] at h
      by_cases hpw : p.1 = w
      · rw [if_pos hpw] at h
        have hpn : p.2 = n := by cases h; rfl
        cases hs : dictGetStr (List.map (fun q => (q.2, q.1)) rest) n with
        | none =>
          simp only [dictGetStr, hs]
          rw [if_pos hpn, hpw]
        | some v =>
          have hmem := dictGetStr_mem _ n v hs
          rcases List.mem_map.mp hmem with ⟨q, hq, hqe⟩
          have hq2 : q.2 = n := congrArg Prod.fst hqe
          have hq1 : q.1 = v := congrArg Prod.snd hqe
          have hq1w := hinj p (List.mem_cons_self _ _) q (List.mem_cons_of_mem _ hq)
            (by rw [hpn, hq2])
          simp only [dictGetStr, hs]
          rw [← hq1, ← hq1w, hpw]
      · rw [if_neg hpw] at h
        cases h

/- ## Claim theorems -/

/-- C1, counterexample: the claim that no notebook cell performs a
repository-authored validity check is false — the MNIST-MLP notebook
authors both the TensorFlow-version assert and the Task-1 assert with the
repository-authored message "You need to write the missing model
definition" (and so do the other notebooks). -/
theorem C1_counterexample :
    (¬ ∀ nb ∈ allNotebooks, ∀ e ∈ nbFlat nb, isRepoCheck e = false) ∧
    nbMnistMlp ∈ allNotebooks ∧
    NbEvent.assertVersion ∈ nbFlat nbMnistMlp ∧
    NbEvent.assertCheck "ex1_outputs" "You need to write the missing model definition"
      ∈ nbFlat nbMnistMlp := by
  refine ⟨?_, by decide, by decide, by decide⟩
  intro h
  exact absurd (h nbMnistMlp (by decide) NbEvent.assertVersion (by decide)) (by decide)

/-- C1, amended: every notebook authors a TensorFlow-version assert in its
first cell, and the three exercise notebooks additionally author one
`assert ex1_outputs is not None` with a repository-authored message; these
asserts are the only repository-authored checks, and no notebook authors a
`try`/`except` or a `raise`, so all other failures propagate from the
framework and halt execution. -/
theorem C1_amended_checks :
    allNotebooks.all (fun nb => (nbFlat nb).all (fun e => !isTryOrRaise e)) = true ∧
    repoChecks nbTestSetup = [NbEvent.assertVersion] ∧
    repoChecks nbMnistMlp =
      [ NbEvent.assertVersion
      , NbEvent.assertCheck "ex1_outputs" "You need to write the missing model definition" ] ∧
    repoChecks nbMnistCnn =
      [ NbEvent.assertVersion
      , NbEvent.assertCheck "ex1_outputs" "You need to write the missing model definition" ] ∧
    repoChecks nbImdbRnn =
      [ NbEvent.assertVersion
      , NbEvent.assertCheck "ex1_outputs" "You need to write the missing model definition" ] ∧
    repoChecks nbMnistRnn = [NbEvent.assertVersion] := by
  refine ⟨by decide, by decide, by decide, by decide, by decide, by decide⟩

/-- C2, counterexample: the claim that every notebook loads a built-in
dataset and fits on it is false — the test-setup notebook never calls a
built-in loader and its `fit` trains on `X_train`/`Y_train` generated by
`np.random.rand`/`np.random.randint`. -/
theorem C2_counterexample :
    (¬ ∀ nb ∈ allNotebooks,
        pipelineOk nb = true ∧ fitsFromBuiltin (nbFlat nb) = true) ∧
    nbTestSetup ∈ allNotebooks ∧
    fitsFromBuiltin (nbFlat nbTestSetup) = false ∧
    originAt nbTestSetup "X_train" = Origin.random ∧
    pipelineOk nbTestSetup = false := by
  refine ⟨?_, by decide, by decide, by decide, by decide⟩
  intro h
  exact absurd (h nbTestSetup (by decide)).2 (by decide)

/-- C2, amended: the four dataset notebooks (MNIST-MLP, MNIST-CNN,
IMDB-RNN, MNIST-RNN) each follow the pipeline import → built-in dataset
load → model definition → compile → fit → evaluate with a results plot
after training, and every `fit` in them trains on arrays originating from
the built-in loader; the test-setup notebook instead trains and evaluates
on randomly generated arrays created only after the model is compiled, and
plots no results. -/
theorem C2_amended_pipeline :
    ([nbMnistMlp, nbMnistCnn, nbImdbRnn, nbMnistRnn].all
        (fun nb => pipelineOk nb && fitsFromBuiltin (nbFlat nb))) = true ∧
    originAt nbTestSetup "X_train" = Origin.random ∧
    originAt nbTestSetup "Y_train" = Origin.random ∧
    originAt nbTestSetup "X_test" = Origin.random ∧
    originAt nbTestSetup "Y_test" = Origin.random ∧
    (nbFlat nbTestSetup).findIdx? isCompileModel = some 8 ∧
    (nbFlat nbTestSetup).findIdx? (fun e => match e with
      | NbEvent.randomData _ => true
      | _ => false) = some 9 ∧
    (nbFlat nbTestSetup).all (fun e => !isPlotResults e) = true := by
  refine ⟨by decide, by decide, by decide, by decide, by decide, by decide, by decide, by decide⟩

/-- C3, counterexample: the claim that no batch script runs a command that
creates, modifies or extracts files is false — both `run-lscratch.sh`
scripts extract the dogs-vs-cats tar archive into node-local scratch. -/
theorem C3_counterexample :
    (¬ ∀ s ∈ allScripts, ∀ c ∈ s.cmds, modifiesFilesystem c = false) ∧
    runLscratchDay2 ∈ allScripts ∧
    ScriptCmd.tarExtract "/scratch/project_2005299/data/dogs-vs-cats.tar" "$LOCAL_SCRATCH"
      ∈ runLscratchDay2.cmds ∧
    runLscratchSlurm ∈ allScripts ∧
    ScriptCmd.tarExtract "/scratch/project_2005006/data/dogs-vs-cats.tar" "$LOCAL_SCRATCH"
      ∈ runLscratchSlurm.cmds := by
  refine ⟨?_, by decide, by decide, by decide, by decide⟩
  intro h
  exact absurd
    (h runLscratchDay2 (by decide)
      (ScriptCmd.tarExtract "/scratch/project_2005299/data/dogs-vs-cats.tar" "$LOCAL_SCRATCH")
      (by decide))
    (by decide)

/-- C3, amended: no batch script contains branching or retry handling, and
no script other than the two `run-lscratch.sh` variants runs a
file-modifying command; each lscratch variant runs exactly one, the tar
extraction of the dataset into node-local scratch, placed before the
interpreter invocation. -/
theorem C3_amended_scripts :
    allScripts.all (fun s => s.cmds.all (fun c => !isBranch c)) = true ∧
    ([runHvd, runHvdTf200, runPart001, runPart002, runPart003].all
        (fun s => s.cmds.all (fun c => !modifiesFilesystem c))) = true ∧
    (runLscratchDay2.cmds.filter modifiesFilesystem).length = 1 ∧
    (runLscratchSlurm.cmds.filter modifiesFilesystem).length = 1 ∧
    ((runLscratchDay2.cmds.takeWhile (fun c => !isRunPython c)).filter
        modifiesFilesystem).length = 1 ∧
    ((runLscratchSlurm.cmds.takeWhile (fun c => !isRunPython c)).filter
        modifiesFilesystem).length = 1 := by
  refine ⟨by decide, by decide, by decide, by decide, by decide, by decide⟩

/-- C4, counterexample: the claim that any two batch scripts agree on
module loaded, exported environment variables and interpreter invocation
is false — `src/unnamed/part_002` loads `tensorflow/2.0.0`, exports
nothing and runs `srun python3.7 $*`, while `src/day2/run-lscratch.sh`
loads `tensorflow`, exports three variables and runs `python3 $*`. -/
theorem C4_counterexample :
    (¬ ∀ s ∈ allScripts, ∀ t ∈ allScripts,
        modulesOf s = modulesOf t ∧ exportNamesOf s = exportNamesOf t ∧
        interpOf s = interpOf t) ∧
    runPart002 ∈ allScripts ∧ runLscratchDay2 ∈ allScripts ∧
    modulesOf runPart002 = ["tensorflow/2.0.0"] ∧
    modulesOf runLscratchDay2 = ["tensorflow"] ∧
    interpOf runPart002 = [("python3.7", true)] ∧
    interpOf runLscratchDay2 = [("python3", false)] ∧
    exportNamesOf runPart002 = [] ∧
    exportNamesOf runLscratchDay2 = ["DATADIR", "KERAS_HOME", "TRANSFORMERS_CACHE"] := by
  refine ⟨?_, by decide, by decide, by decide, by decide, by decide, by decide,
    by decide, by decide⟩
  intro h
  exact absurd (h runPart002 (by decide) runLscratchDay2 (by decide)).1 (by decide)

/-- C4, amended: the seven batch scripts are instances of one command
skeleton — `module load`, `module list`, zero or more `export`s,
`set -xv`, an optional tar extraction, and a final interpreter invocation
on the script arguments — but they differ in more than account,
reservation, GPU count and scratch handling: the loaded module version,
the set of exported variables and the interpreter invocation also vary
between scripts. -/
theorem C4_amended_template :
    allScripts.all (fun s => matchesTemplate s.cmds) = true ∧
    modulesOf runPart002 ≠ modulesOf runLscratchDay2 ∧
    exportNamesOf runPart002 ≠ exportNamesOf runLscratchDay2 ∧
    interpOf runPart002 ≠ interpOf runLscratchDay2 ∧
    modulesOf runLscratchSlurm ≠ modulesOf runLscratchDay2 ∧
    modulesOf runHvdTf200 ≠ modulesOf runHvd ∧
    exportNamesOf runHvdTf200 ≠ exportNamesOf runHvd := by
  refine ⟨by decide, by decide, by decide, by decide, by decide, by decide, by decide⟩

/-- C5, counterexample: the claim that every batch script exports a
dataset-directory variable and cache-directory variables before invoking
the interpreter is false — `src/unnamed/part_002` exports no environment
variable at all, and the Horovod tensorflow/2.0.0 script exports only
`DATADIR`, no cache directories. -/
theorem C5_counterexample :
    (¬ ∀ s ∈ allScripts, hasDataAndCacheExports s = true) ∧
    runPart002 ∈ allScripts ∧
    exportNamesOf runPart002 = [] ∧
    runHvdTf200 ∈ allScripts ∧
    exportNamesOf runHvdTf200 = ["DATADIR"] := by
  refine ⟨?_, by decide, by decide, by decide, by decide⟩
  intro h
  exact absurd (h runPart002 (by decide)) (by decide)

/-- C5, amended: five of the seven batch scripts export `DATADIR`,
`KERAS_HOME` and `TRANSFORMERS_CACHE` before invoking the interpreter; the
Horovod tensorflow/2.0.0 script exports only `DATADIR`, and
`src/unnamed/part_002` exports nothing; in every script all exports
precede the interpreter invocation, so the exported variables are visible
to the launched Python process. -/
theorem C5_amended_exports :
    ([runLscratchDay2, runHvd, runLscratchSlurm, runPart001, runPart003].all
        hasDataAndCacheExports) = true ∧
    exportNamesBeforePython runHvdTf200 = ["DATADIR"] ∧
    exportNamesBeforePython runPart002 = [] ∧
    allScripts.all
      (fun s => exportNamesBeforePython s == exportNamesOf s) = true := by
  refine ⟨by decide, by decide, by decide, by decide⟩

/-- C6, counterexample: the claim that no cell after a dataset load
modifies or rebinds the loaded arrays is false — in the IMDB notebook the
cell after the load rebinds `x_train`/`x_test` via
`sequence.pad_sequences`, and in the MNIST-CNN notebook the cell after the
load cell rebinds `X_train`/`X_test` via `reshape`. -/
theorem C6_counterexample :
    (¬ ∀ nb ∈ allNotebooks, datasetImmutable nb = true) ∧
    nbImdbRnn ∈ allNotebooks ∧
    datasetImmutable nbImdbRnn = false ∧
    cellLoadedArrays ((nbImdbRnn.cells).getD 1 []) =
      ["x_train", "y_train", "x_test", "y_test"] ∧
    cellWrites ((nbImdbRnn.cells).getD 2 []) = ["x_train", "x_test"] ∧
    datasetImmutable nbMnistCnn = false := by
  refine ⟨?_, by decide, by decide, by decide, by decide, by decide⟩
  intro h
  exact absurd (h nbImdbRnn (by decide)) (by decide)

/-- C6, amended: in every notebook, all writes to arrays returned by a
built-in dataset load (the `astype` casts, `/= 255` scaling, `reshape`,
and `pad_sequences` rebinds) happen strictly before the first
model-definition cell; from that cell on, every operation only reads the
loaded arrays. -/
theorem C6_amended_writes :
    allNotebooks.all writesConfinedToPreprocessing = true := by
  decide

/-- C7: one-hot round-trip — for every label `y < 10`, the row
`to_categorical(y, 10)` has length 10, carries a one at index `y` and
zeros elsewhere, sums to 1, and `argmax` recovers `y`. -/
theorem C7_onehot_roundtrip (y : Nat) (h : y < 10) :
    (to_categorical y 10).length = 10 ∧
    (∀ i, i < 10 → (to_categorical y 10)[i]? = some (if i = y then 1 else 0)) ∧
    (to_categorical y 10).sum = 1 ∧
    argmax (to_categorical y 10) = y := by
  interval_cases y <;> exact ⟨by decide, by decide, by decide, by decide⟩

/-- C7, witness at `y = 3`. -/
theorem C7_witness :
    3 < 10 ∧
    ((to_categorical 3 10).length = 10 ∧
     (∀ i, i < 10 → (to_categorical 3 10)[i]? = some (if i = 3 then 1 else 0)) ∧
     (to_categorical 3 10).sum = 1 ∧
     argmax (to_categorical 3 10) = 3) :=
  ⟨by decide, C7_onehot_roundtrip 3 (by decide)⟩

/-- C8: pixel normalisation — every byte value `p ≤ 255` is mapped to
`p / 255`, which lies in the closed interval `[0, 1]`, with `0 ↦ 0` and
`255 ↦ 1`; consequently after normalisation every entry of a loaded image
array lies in `[0, 1]`. -/
theorem C8_pixel_normalization (p : Nat) (hp : p ≤ 255) (xs : List Nat)
    (hxs : ∀ q ∈ xs, q ≤ 255) :
    (0 ≤ normalizePixel p ∧ normalizePixel p ≤ 1) ∧
    normalizePixel 0 = 0 ∧ normalizePixel 255 = 1 ∧
    ∀ r ∈ normalizeImage xs, 0 ≤ r ∧ r ≤ 1 := by
  have key : ∀ q : Nat, q ≤ 255 → 0 ≤ normalizePixel q ∧ normalizePixel q ≤ 1 := by
    intro q hq
    unfold normalizePixel
    constructor
    · positivity
    · rw [div_le_one (by norm_num)]
      exact_mod_cast hq
  refine ⟨key p hp, by norm_num [normalizePixel], by norm_num [normalizePixel], ?_⟩
  intro r hr
  simp only [normalizeImage] at hr
  rcases List.mem_map.mp hr with ⟨q, hq, rfl⟩
  exact key q (hxs q hq)

/-- C8, witness at `p = 128` and the image `[0, 128, 255]`. -/
theorem C8_witness :
    (128 ≤ 255 ∧ ∀ q ∈ ([0, 128, 255] : List Nat), q ≤ 255) ∧
    ((0 ≤ normalizePixel 128 ∧ normalizePixel 128 ≤ 1) ∧
     normalizePixel 0 = 0 ∧ normalizePixel 255 = 1 ∧
     ∀ r ∈ normalizeImage [0, 128, 255], 0 ≤ r ∧ r ≤ 1) :=
  ⟨⟨by decide, by decide⟩,
    C8_pixel_normalization 128 (by decide) [0, 128, 255] (by decide)⟩

/-- C9: the hand-written IMDB review encoder — for every review of at most
79 words, the produced row has length 80 (`maxlen`), entry 0 is the
start-of-review marker 1, entry `k + 1` holds `word_index[w] + 3` for the
`k`-th word `w` when `w` is in the vocabulary with `word_index[w] + 3 <
nb_words` and the out-of-vocabulary marker 2 otherwise, all remaining
entries stay 0, and every entry is strictly below `nb_words = 10000`, the
Embedding layer's `input_dim`. -/
theorem C9_review_encoder (wi : List (String × Nat)) (ws : List String)
    (h : ws.length ≤ 79) :
    (encodeReview wi ws).length = 80 ∧
    (encodeReview wi ws)[0]? = some 1 ∧
    (∀ k (hk : k < ws.length),
       (encodeReview wi ws)[k + 1]? = some (encodeToken wi ws[k])) ∧
    (∀ j, ws.length + 1 ≤ j → j < 80 → (encodeReview wi ws)[j]? = some 0) ∧
    (∀ x ∈ encodeReview wi ws, x < nb_words) := by
  have hinitlen : (((List.replicate maxlen 0).set 0 1) : List Nat).length = 80 := by
    rw [List.length_set, List.length_replicate]
    rfl
  refine ⟨?_, ?_, ?_, ?_, ?_⟩
  · rw [encodeReview, encodeLoop_length, hinitlen]
  · rw [encodeReview, encodeLoop_getElem_low wi ws 0 _ 0 (by omega)]
    exact List.getElem?_set_eq_of_lt _ (by rw [List.length_replicate]; decide)
  · intro k hk
    have hmid := encodeLoop_getElem_mid wi ws 0 ((List.replicate maxlen 0).set 0 1) k hk
      (by rw [hinitlen]; omega)
    rw [show 0 + 1 + k = k + 1 from by omega] at hmid
    rw [encodeReview]
    exact hmid
  · intro j hj1 hj2
    rw [encodeReview, encodeLoop_getElem_high wi ws 0 _ j (by omega)]
    rw [List.getElem?_set_ne (by omega)]
    exact List.getElem?_replicate_of_lt (by simpa [maxlen] using hj2)
  · rw [encodeReview]
    apply encodeLoop_mem_lt
    intro x hx
    rcases List.mem_or_eq_of_mem_set hx with hm | he
    · rw [List.eq_of_mem_replicate hm]; decide
    · rw [he]; decide

/-- C9, witness at the two-word review `["movie", "zzz"]` over the demo
vocabulary. -/
theorem C9_witness :
    demoReview.length ≤ 79 ∧
    ((encodeReview demoWordIndex demoReview).length = 80 ∧
     (encodeReview demoWordIndex demoReview)[0]? = some 1 ∧
     (∀ k (hk : k < demoReview.length),
        (encodeReview demoWordIndex demoReview)[k + 1]? =
          some (encodeToken demoWordIndex demoReview[k])) ∧
     (∀ j, demoReview.length + 1 ≤ j → j < 80 →
        (encodeReview demoWordIndex demoReview)[j]? = some 0) ∧
     (∀ x ∈ encodeReview demoWordIndex demoReview, x < nb_words)) :=
  ⟨by decide, C9_review_encoder demoWordIndex demoReview (by decide)⟩

/-- C10: vocabulary round-trip — when `word_index` assigns distinct
indices to distinct words, looking the index of a word up in
`reverse_word_index` (built by swapping each pair) returns the word, and
decoding an encoded in-vocabulary token `word_index[w] + 3` via
`reverse_word_index.get(t - 3, ?)` recovers `w`, so decode after encode is
the identity on in-vocabulary words below the `nb_words` cutoff. -/
theorem C10_vocab_roundtrip (wi : List (String × Nat)) (w : String) (n : Nat)
    (hinj : ∀ p ∈ wi, ∀ q ∈ wi, p.2 = q.2 → p.1 = q.1)
    (hw : dictGetNat wi w = some n) (hn : n + 3 < nb_words) :
    dictGetStr (reverse_word_index wi) n = some w ∧
    dictGetStrD (reverse_word_index wi) n "?" = w ∧
    encodeToken wi w = n + 3 ∧
    dictGetStrD (reverse_word_index wi) (encodeToken wi w - 3) "?" = w := by
  have hs := dict_swap_roundtrip wi w n hinj hw
  have htok : encodeToken wi w = n + 3 := by
    simp only [encodeToken, hw]
    rw [if_pos hn]
  refine ⟨hs, ?_, htok, ?_⟩
  · simp [dictGetStrD, hs]
  · rw [htok, Nat.add_sub_cancel]
    simp [dictGetStrD, hs]

/-- C10, witness at the word "movie" with index 16 in the demo
vocabulary. -/
theorem C10_witness :
    (∀ p ∈ demoWordIndex, ∀ q ∈ demoWordIndex, p.2 = q.2 → p.1 = q.1) ∧
    dictGetNat demoWordIndex "movie" = some 16 ∧
    16 + 3 < nb_words ∧
    (dictGetStr (reverse_word_index demoWordIndex) 16 = some "movie" ∧
     dictGetStrD (reverse_word_index demoWordIndex) 16 "?" = "movie" ∧
     encodeToken demoWordIndex "movie" = 16 + 3 ∧
     dictGetStrD (reverse_word_index demoWordIndex)
       (encodeToken demoWordIndex "movie" - 3) "?" = "movie") :=
  ⟨by decide, by decide, by decide,
    C10_vocab_roundtrip demoWordIndex "movie" 16 (by decide) (by decide) (by decide)⟩
